import Mathlib

/-!
Shallow embedding of `tools/ann2graf.py`, the brat standoff format reader.

Python strings are modelled as `List Char`; Python runtime failures
(ValueError from `int()` and tuple unpacking, TypeError from calling a
namedtuple constructor with the wrong arity, AssertionError from `assert`,
IndexError from out-of-range subscripts) are modelled with `Except PyErr`.
Each definition mirrors one function or one statement of the source file.
-/

namespace Brat

/-- A Python string, as a list of characters. -/
abbrev Str := List Char

instance instDecEqExcept {ε α : Type} [DecidableEq ε] [DecidableEq α] :
    DecidableEq (Except ε α) := fun x y =>
  match x, y with
  | .ok a, .ok b =>
    if h : a = b then .isTrue (by rw [h]) else .isFalse (by simp [h])
  | .error a, .error b =>
    if h : a = b then .isTrue (by rw [h]) else .isFalse (by simp [h])
  | .ok _, .error _ => .isFalse (by simp)
  | .error _, .ok _ => .isFalse (by simp)

/-- The Python exception kinds the source code can raise. -/
inductive PyErr where
  | valueError
  | typeError
  | assertionError
  | indexError
  deriving DecidableEq

/-- A Python value that is either an int or a str.  `parse_offsets` stores
ints in the discontinuous branch but raw strings in the continuous branch,
so `Text` fields must range over both. -/
inductive PyVal where
  | vInt (n : Int)
  | vStr (s : Str)
  deriving DecidableEq

/-- `Text = namedtuple('Text', 'start end')`. -/
structure Text where
  start : PyVal
  end_ : PyVal
  deriving DecidableEq

/-- `Trigger = namedtuple('Trigger', 'id type')`. -/
structure Trigger where
  id : Str
  type : Str
  deriving DecidableEq

/-- `Argument = namedtuple('Argument', 'id type')`. -/
structure Argument where
  id : Str
  type : Str
  deriving DecidableEq

/-- `Note = namedtuple('Note', 'id type text annotation_id')`. -/
structure Note where
  id : Str
  type : Str
  text : Str
  annotation_id : Str
  deriving DecidableEq

/-- `Normalization = namedtuple('Normalization', 'norm_type anno_id resource_id entry_id text_str')`. -/
structure Normalization where
  norm_type : Str
  anno_id : Str
  resource_id : Str
  entry_id : Str
  text_str : Str
  deriving DecidableEq

/-- `class Entity`: fields `id`, `offsets`, `string`. -/
structure Entity where
  id : Str
  offsets : List Text
  string : Str
  deriving DecidableEq

/-- `class Event`: fields `id`, `trigger`, `arguments`. -/
structure Event where
  id : Str
  trigger : Trigger
  arguments : List Argument
  deriving DecidableEq

/-- `class Relation`: fields `id`, `type`, `arguments`. -/
structure Relation where
  id : Str
  type : Str
  arguments : List Argument
  deriving DecidableEq

/-- `class Equivalence`: fields `type`, `entities` (note: no `id` field). -/
structure Equivalence where
  type : Str
  entities : List Str
  deriving DecidableEq

/-- `class Attribute`: fields `id`, `type`, `value`, `annotation_id`. -/
structure Attribute where
  id : Str
  type : Str
  value : Option Str
  annotation_id : Str
  deriving DecidableEq

/-- The sum of the seven record classes that `parse_annotation` appends. -/
inductive AnnRecord where
  | entity (e : Entity)
  | event (e : Event)
  | relation (r : Relation)
  | equivalence (q : Equivalence)
  | attribute (a : Attribute)
  | normalization (n : Normalization)
  | note (n : Note)
  deriving DecidableEq

/-- Python whitespace, as used by `str.rstrip()` and `int()`. -/
def isPyWs (c : Char) : Bool :=
  c == ' ' || c == '\t' || c == '\n' || c == '\r' || c == '\x0B' || c == '\x0C'

/-- Python `s.rstrip()`. -/
def pyRstrip (s : Str) : Str :=
  (s.reverse.dropWhile isPyWs).reverse

/-- Python `s.split(sep)` with an explicit one-character separator: keeps
empty pieces, and the split of `""` is `[""]`. -/
def pySplit (sep : Char) : Str → List Str
  | [] => [[]]
  | c :: cs =>
    if c = sep then [] :: pySplit sep cs
    else
      match pySplit sep cs with
      | [] => [[c]]
      | t :: ts => (c :: t) :: ts

/-- Python `s.split(sep, 1)`: the part before the first separator, and the
rest after it when a separator occurs. -/
def pySplitOnce (sep : Char) : Str → Str × Option Str
  | [] => ([], none)
  | c :: cs =>
    if c = sep then ([], some cs)
    else
      let p := pySplitOnce sep cs
      (c :: p.1, p.2)

/-- `a, b = s.split(sep, 1)`: unpacking raises ValueError when the
separator does not occur. -/
def pyUnpackSplit1 (sep : Char) (s : Str) : Except PyErr (Str × Str) :=
  match pySplitOnce sep s with
  | (_, none) => .error .valueError
  | (t, some r) => .ok (t, r)

/-- `a, b = l`: unpacking a list into two names. -/
def pyUnpack2 (l : List Str) : Except PyErr (Str × Str) :=
  match l with
  | [a, b] => .ok (a, b)
  | _ => .error .valueError

/-- `a, b, c = l`: unpacking a list into three names. -/
def pyUnpack3 (l : List Str) : Except PyErr (Str × Str × Str) :=
  match l with
  | [a, b, c] => .ok (a, b, c)
  | _ => .error .valueError

/-- `l[n]` on a Python list: IndexError when out of range. -/
def pyIndex : List Str → Nat → Except PyErr Str
  | [], _ => .error .indexError
  | s :: _, 0 => .ok s
  | _ :: l, n + 1 => pyIndex l n

/-- Python `s.startswith(p)`. -/
def pyStartswith (s p : Str) : Bool :=
  p.isPrefixOf s

/-- The value of a non-empty all-digit string, `none` otherwise. -/
def digitsVal (l : Str) : Option Nat :=
  if l.isEmpty || !(l.all Char.isDigit) then none
  else some (l.foldl (fun a c => a * 10 + (c.toNat - 48)) 0)

/-- Python `int(s)`: surrounding whitespace is stripped, an optional sign
is allowed, then a non-empty run of decimal digits is required. -/
def pyInt (s : Str) : Option Int :=
  let t := (pyRstrip s).dropWhile isPyWs
  match t with
  | '-' :: rest => (digitsVal rest).map (fun n => -(n : Int))
  | '+' :: rest => (digitsVal rest).map (fun n => (n : Int))
  | _ => (digitsVal t).map (fun n => (n : Int))

/-- A Python `for` loop that appends one result per element and propagates
the first exception. -/
def exMapM {α β : Type} (f : α → Except PyErr β) : List α → Except PyErr (List β)
  | [] => .ok []
  | a :: l =>
    match f a with
    | .error e => .error e
    | .ok b =>
      match exMapM f l with
      | .error e => .error e
      | .ok bs => .ok (b :: bs)

/-- Whether an `Except` computation succeeded. -/
def exOk {α : Type} : Except PyErr α → Bool
  | .ok _ => true
  | .error _ => false

/-- `int(offset)` inside the list comprehension of `parse_offsets`. -/
def pyIntTok (s : Str) : Except PyErr Int :=
  match pyInt s with
  | none => .error .valueError
  | some n => .ok n

/-- One iteration of the discontinuous loop of `parse_offsets`:
`offsets = [int(offset) for offset in string.split(' ')]` then
`Text(*offsets)`, which is a TypeError unless exactly two values remain. -/
def offsetsOfGroup (g : Str) : Except PyErr Text :=
  match exMapM pyIntTok (pySplit ' ' g) with
  | .error e => .error e
  | .ok [a, b] => .ok ⟨.vInt a, .vInt b⟩
  | .ok _ => .error .typeError

/-- `parse_offsets`: with a semicolon, each group is int-converted and
packed into `Text`; without one, the space-split pieces are packed into
`Text` directly, with no int conversion. -/
def parse_offsets (offsets_str : Str) : Except PyErr (List Text) :=
  if ';' ∈ offsets_str then
    exMapM offsetsOfGroup (pySplit ';' offsets_str)
  else
    match pySplit ' ' offsets_str with
    | [a, b] => .ok [⟨.vStr a, .vStr b⟩]
    | _ => .error .typeError

/-- `arg_type, arg_id = arg_str.split(':')` then `Argument(arg_id, arg_type)`. -/
def argOfToken (arg_str : Str) : Except PyErr Argument :=
  match pySplit ':' arg_str with
  | [arg_type, arg_id] => .ok ⟨arg_id, arg_type⟩
  | _ => .error .valueError

/-- `parse_arguments`: when `arguments_str.rstrip()` is falsy the result is
empty; otherwise the original (un-stripped) string is space-split and each
token must unpack around a single colon. -/
def parse_arguments (arguments_str : Str) : Except PyErr (List Argument) :=
  if pyRstrip arguments_str = [] then .ok []
  else exMapM argOfToken (pySplit ' ' arguments_str)

/-- `parse_attribute`: two tokens give a valueless attribute, three give a
valued one, any other count raises ValueError. -/
def parse_attribute (attribute_id attribute_str : Str) : Except PyErr Attribute :=
  match pySplit ' ' attribute_str with
  | [attribute_type, annotation_id] =>
    .ok ⟨attribute_id, attribute_type, none, annotation_id⟩
  | [attribute_type, annotation_id, attribute_value] =>
    .ok ⟨attribute_id, attribute_type, some attribute_value, annotation_id⟩
  | _ => .error .valueError

/-- `parse_normalization`: column 1 unpacks into three space-separated
tokens, the third of which unpacks around a colon; column 2 is stored
verbatim as `text_str`. -/
def parse_normalization (normalization_str entity_str : Str) : Except PyErr Normalization :=
  match pyUnpack3 (pySplit ' ' normalization_str) with
  | .error e => .error e
  | .ok (norm_type, anno_id, resource_str) =>
    match pyUnpack2 (pySplit ':' resource_str) with
    | .error e => .error e
    | .ok (resource_id, entry_id) =>
      .ok ⟨norm_type, anno_id, resource_id, entry_id, entity_str⟩

/-- The dispatch body of the `parse_annotation` loop, after the column-count
assert: selects a record class from `columns[0]` and builds the record, or
returns `none` for an unrecognized identifier. -/
def classify (columns : List Str) : Except PyErr (Option AnnRecord) :=
  match pyIndex columns 0 with
  | .error e => .error e
  | .ok anno_id =>
    if pyStartswith anno_id ['T'] then
      match pyIndex columns 1 with
      | .error e => .error e
      | .ok col1 =>
        match pyUnpackSplit1 ' ' col1 with
        | .error e => .error e
        | .ok (_anno_type, offsets_str) =>
          match parse_offsets offsets_str with
          | .error e => .error e
          | .ok list_of_offsets =>
            match pyIndex columns 2 with
            | .error e => .error e
            | .ok col2 =>
              .ok (some (.entity ⟨anno_id, list_of_offsets, pyRstrip col2⟩))
    else if pyStartswith anno_id ['E'] then
      match pyIndex columns 1 with
      | .error e => .error e
      | .ok col1 =>
        match pyUnpackSplit1 ' ' col1 with
        | .error e => .error e
        | .ok (trigger_str, arguments_str) =>
          match pyUnpack2 (pySplit ':' trigger_str) with
          | .error e => .error e
          | .ok (trigger_type, trigger_id) =>
            match parse_arguments arguments_str with
            | .error e => .error e
            | .ok arguments =>
              .ok (some (.event ⟨anno_id, ⟨trigger_id, trigger_type⟩, arguments⟩))
    else if pyStartswith anno_id ['R'] then
      match pyIndex columns 1 with
      | .error e => .error e
      | .ok col1 =>
        match pyUnpackSplit1 ' ' col1 with
        | .error e => .error e
        | .ok (relation_type, arguments_str) =>
          match parse_arguments arguments_str with
          | .error e => .error e
          | .ok arguments =>
            .ok (some (.relation ⟨anno_id, relation_type, arguments⟩))
    else if anno_id = ['*'] then
      match pyIndex columns 1 with
      | .error e => .error e
      | .ok col1 =>
        match pyUnpackSplit1 ' ' col1 with
        | .error e => .error e
        | .ok (relation_type, entities_str) =>
          .ok (some (.equivalence ⟨relation_type, pySplit ' ' entities_str⟩))
    else if pyStartswith anno_id ['A'] || pyStartswith anno_id ['M'] then
      match pyIndex columns 1 with
      | .error e => .error e
      | .ok col1 =>
        match parse_attribute anno_id col1 with
        | .error e => .error e
        | .ok a => .ok (some (.attribute a))
    else if pyStartswith anno_id ['N'] then
      match pyIndex columns 1 with
      | .error e => .error e
      | .ok col1 =>
        match pyIndex columns 2 with
        | .error e => .error e
        | .ok col2 =>
          match parse_normalization col1 col2 with
          | .error e => .error e
          | .ok n => .ok (some (.normalization n))
    else if pyStartswith anno_id ['#'] then
      match pyIndex columns 1 with
      | .error e => .error e
      | .ok col1 =>
        match pyUnpack2 (pySplit ' ' col1) with
        | .error e => .error e
        | .ok (note_type, annotation_id) =>
          match pyIndex columns 2 with
          | .error e => .error e
          | .ok col2 =>
            .ok (some (.note ⟨anno_id, note_type, pyRstrip col2, annotation_id⟩))
    else
      .ok none

/-- One iteration of the `parse_annotation` loop on a raw line: tab-split
into columns, assert `1 < len(columns) < 4`, then dispatch.  `ok none`
means the line was silently skipped. -/
def parse_ann_line (line : Str) : Except PyErr (Option AnnRecord) :=
  let columns := pySplit '\t' line
  if 1 < columns.length ∧ columns.length < 4 then classify columns
  else .error .assertionError

/-- The whole of `parse_annotation` over the list of lines of a file:
records accumulate in line order and the first exception aborts. -/
def parse_ann_file (lines : List Str) : Except PyErr (List AnnRecord) :=
  match lines with
  | [] => .ok []
  | l :: rest =>
    match parse_ann_line l with
    | .error e => .error e
    | .ok none => parse_ann_file rest
    | .ok (some a) =>
      match parse_ann_file rest with
      | .error e => .error e
      | .ok anns => .ok (a :: anns)

/-- The `id` attribute shared by the record classes that have one;
`Equivalence` and `Normalization` objects have no such attribute. -/
def annId : AnnRecord → Option Str
  | .entity e => some e.id
  | .event e => some e.id
  | .relation r => some r.id
  | .equivalence _ => none
  | .attribute a => some a.id
  | .normalization _ => none
  | .note n => some n.id

/-- Joins tokens with single spaces, the inverse of a clean space split. -/
def joinSp : List Str → Str
  | [] => []
  | [t] => t
  | t :: rest => t ++ ' ' :: joinSp rest

/-! ### Helper lemmas about the Python string primitives -/

theorem pySplit_no_sep (sep : Char) (s : Str) (h : sep ∉ s) : pySplit sep s = [s] := by
  induction s with
  | nil => rfl
  | cons c cs ih =>
    simp only [List.mem_cons, not_or] at h
    have hne : ¬c = sep := fun he => h.1 he.symm
    simp only [pySplit, if_neg hne, ih h.2]

theorem pySplit_append (sep : Char) (a b : Str) (h : sep ∉ a) :
    pySplit sep (a ++ sep :: b) = a :: pySplit sep b := by
  induction a with
  | nil => simp [pySplit]
  | cons c cs ih =>
    simp only [List.mem_cons, not_or] at h
    have hne : ¬c = sep := fun he => h.1 he.symm
    simp only [List.cons_append, pySplit, if_neg hne, List.append_eq, ih h.2]

theorem pySplitOnce_no_sep (sep : Char) (s : Str) (h : sep ∉ s) :
    pySplitOnce sep s = (s, none) := by
  induction s with
  | nil => rfl
  | cons c cs ih =>
    simp only [List.mem_cons, not_or] at h
    have hne : ¬c = sep := fun he => h.1 he.symm
    simp only [pySplitOnce, if_neg hne, ih h.2]

theorem pySplitOnce_append (sep : Char) (a b : Str) (h : sep ∉ a) :
    pySplitOnce sep (a ++ sep :: b) = (a, some b) := by
  induction a with
  | nil => simp [pySplitOnce]
  | cons c cs ih =>
    simp only [List.mem_cons, not_or] at h
    have hne : ¬c = sep := fun he => h.1 he.symm
    simp only [List.cons_append, pySplitOnce, if_neg hne, List.append_eq, ih h.2]

theorem pyStartswith_single (c d : Char) (r : Str) :
    pyStartswith (c :: r) [d] = (d == c) := by
  simp [pyStartswith, List.isPrefixOf]

theorem exMapM_ok_map {α β : Type} (f : α → Except PyErr β) (g : α → β) (l : List α)
    (h : ∀ x ∈ l, f x = .ok (g x)) : exMapM f l = .ok (l.map g) := by
  induction l with
  | nil => rfl
  | cons a l ih =>
    simp only [exMapM, h a (List.mem_cons_self a l),
      ih (fun x hx => h x (List.mem_cons_of_mem _ hx)), List.map]

theorem exMapM_error_iff {α β : Type} (f : α → Except PyErr β) (l : List α) :
    exOk (exMapM f l) = false ↔ ∃ x ∈ l, exOk (f x) = false := by
  induction l with
  | nil => simp [exMapM, exOk]
  | cons a l ih =>
    constructor
    · intro hl
      cases hfa : f a with
      | error e => exact ⟨a, List.mem_cons_self a l, by simp [exOk, hfa]⟩
      | ok b =>
        cases hml : exMapM f l with
        | error e2 =>
          obtain ⟨x, hx, hb⟩ := ih.mp (by simp [exOk, hml])
          exact ⟨x, List.mem_cons_of_mem a hx, hb⟩
        | ok bs =>
          simp only [exMapM, hfa, hml, exOk] at hl
          exact Bool.noConfusion hl
    · rintro ⟨x, hx, hb⟩
      rcases List.mem_cons.mp hx with rfl | hx2
      · cases hfa : f x with
        | error e => simp [exMapM, hfa, exOk]
        | ok b => rw [hfa] at hb; simp [exOk] at hb
      · have hl : exOk (exMapM f l) = false := ih.mpr ⟨x, hx2, hb⟩
        cases hml : exMapM f l with
        | error e =>
          cases hfa : f a with
          | error e2 => simp [exMapM, hfa, exOk]
          | ok b => simp [exMapM, hfa, hml, exOk]
        | ok bs => rw [hml] at hl; simp [exOk] at hl

theorem pyRstrip_ne_nil {s : Str} {c : Char} (hc : c ∈ s) (hw : isPyWs c = false) :
    pyRstrip s ≠ [] := by
  intro h
  unfold pyRstrip at h
  rw [List.reverse_eq_nil_iff] at h
  have hall := List.dropWhile_eq_nil_iff.mp h c (List.mem_reverse.mpr hc)
  rw [hw] at hall
  exact Bool.false_ne_true hall

theorem pySplit_joinSp (toks : List Str) (h : ∀ t ∈ toks, ' ' ∉ t) (hne : toks ≠ []) :
    pySplit ' ' (joinSp toks) = toks := by
  induction toks with
  | nil => exact absurd rfl hne
  | cons t rest ih =>
    cases rest with
    | nil => exact pySplit_no_sep ' ' t (h t (List.mem_cons_self t []))
    | cons u rest2 =>
      rw [show joinSp (t :: u :: rest2) = t ++ ' ' :: joinSp (u :: rest2) from rfl,
        pySplit_append ' ' t _ (h t (List.mem_cons_self _ _)),
        ih (fun x hx => h x (List.mem_cons_of_mem _ hx)) (by simp)]

theorem exMapM_map {α γ β : Type} (f : γ → Except PyErr β) (m : α → γ) (l : List α) :
    exMapM f (l.map m) = exMapM (fun a => f (m a)) l := by
  induction l with
  | nil => rfl
  | cons a l ih => simp only [List.map, exMapM, ih]

theorem joinSp_cons_append (t : Str) (rest : List Str) :
    ∃ suf : Str, joinSp (t :: rest) = t ++ suf := by
  cases rest with
  | nil => exact ⟨[], by simp [joinSp]⟩
  | cons u r => exact ⟨' ' :: joinSp (u :: r), rfl⟩

theorem argOfToken_error_iff (t : Str) :
    exOk (argOfToken t) = false ↔ (pySplit ':' t).length ≠ 2 := by
  rcases hp : pySplit ':' t with _ | ⟨a, _ | ⟨b, _ | ⟨c, r⟩⟩⟩ <;>
    simp [argOfToken, hp, exOk]

theorem parse_normalization_text (a b : Str) (n : Normalization)
    (h : parse_normalization a b = .ok n) : n.text_str = b := by
  simp only [parse_normalization] at h
  repeat' split at h
  all_goals first
  | (cases h; rfl)
  | simp_all

theorem parse_attribute_id (i s : Str) (a : Attribute)
    (h : parse_attribute i s = .ok a) : a.id = i := by
  simp only [parse_attribute] at h
  repeat' split at h
  all_goals first
  | (cases h; rfl)
  | simp_all

/-! ### Claim theorems -/

/-- Claim C1 (code bug): on the two-token offset string `"0 5"` the code
returns one `Text` whose fields are the raw strings `"0"` and `"5"` rather
than the integers 0 and 5 that the claim (and the `parse_offsets` docstring)
state, because the continuous branch omits the `int()` conversion that the
semicolon branch performs; the Entity built from `T1<tab>Person 0 5<tab>Jones`
accordingly carries string offsets. -/
theorem c1_entity_offsets_are_strings :
    parse_offsets "0 5".data = .ok [⟨.vStr "0".data, .vStr "5".data⟩] ∧
    parse_offsets "0 5;16 23".data =
      .ok [⟨.vInt 0, .vInt 5⟩, ⟨.vInt 16, .vInt 23⟩] ∧
    parse_ann_file ["T1\tPerson 0 5\tJones".data] =
      .ok [.entity ⟨"T1".data, [⟨.vStr "0".data, .vStr "5".data⟩], "Jones".data⟩] :=
  ⟨by decide, by decide, by decide⟩

/-- Claim C2 (code bug): `parse_offsets` accepts the non-numeric input
`"x y"` without a semicolon (no integer validation happens on that path),
while the claim demands failure on any non-numeric token; the other failure
modes the claim lists do hold: `"a"`, `"a b c"`, and a non-numeric token in
a semicolon-containing input all fail. -/
theorem c2_nonnumeric_accepted_without_semicolon :
    parse_offsets "x y".data = .ok [⟨.vStr "x".data, .vStr "y".data⟩] ∧
    exOk (parse_offsets "a".data) = false ∧
    exOk (parse_offsets "a b c".data) = false ∧
    exOk (parse_offsets "x y;1 2".data) = false :=
  ⟨by decide, by decide, by decide, by decide⟩

/-- Claim C3 counterexample: `parse_arguments` on `"Org1:T1 "` (one
argument followed by a trailing space) raises ValueError instead of
returning the single pair the claim promises, because the space split of
the original string yields a spurious empty token. -/
theorem c3_trailing_space_counterexample :
    parse_arguments "Org1:T1 ".data = .error PyErr.valueError := by decide

/-- Claim C8: a line whose tab-split column count is not 2 or 3 — which
includes the empty line and any tab-free line — makes the classifier fail
with the column-count assertion (the MalformedRecord condition) instead of
skipping the line or producing a record. -/
theorem c8_column_count_error (line : Str)
    (h2 : (pySplit '\t' line).length ≠ 2) (h3 : (pySplit '\t' line).length ≠ 3) :
    parse_ann_line line = .error .assertionError := by
  simp only [parse_ann_line]
  rw [if_neg (by omega)]

theorem c8_column_count_error_witness :
    parse_ann_line [] = .error PyErr.assertionError ∧
    parse_ann_line "nocolumns".data = .error PyErr.assertionError :=
  ⟨c8_column_count_error [] (by decide) (by decide),
   c8_column_count_error "nocolumns".data (by decide) (by decide)⟩

/-- Claim C4 counterexample: classifying the line
`N1<tab>Reference T1 Wikipedia:534366<tab>Barack Obama` produces a
Normalization record that carries no `id` attribute at all — its `anno_id`
field holds the target reference `"T1"` from column 1, and the line's
column-0 identifier `"N1"` is stored nowhere — refuting the claim that
every produced record carries the column-0 identifier as its identity. -/
theorem c4_normalization_counterexample :
    parse_ann_line "N1\tReference T1 Wikipedia:534366\tBarack Obama".data =
      .ok (some (.normalization ⟨"Reference".data, "T1".data, "Wikipedia".data,
        "534366".data, "Barack Obama".data⟩)) ∧
    annId (.normalization ⟨"Reference".data, "T1".data, "Wikipedia".data,
        "534366".data, "Barack Obama".data⟩) = none :=
  ⟨by decide, rfl⟩

/-- Claim C6 counterexample: the 2-column line `*x<tab>Equiv T1 T3` has an
identifier whose first character is `*`, yet the classifier silently skips
it (the code compares the whole identifier to `"*"` with equality, not a
first-character test), refuting the claim that such a line is classified as
an Equivalence. -/
theorem c6_star_counterexample :
    (pySplit '\t' "*x\tEquiv T1 T3".data).length = 2 ∧
    pyStartswith ((pySplit '\t' "*x\tEquiv T1 T3".data).headD []) ['*'] = true ∧
    parse_ann_line "*x\tEquiv T1 T3".data = .ok none :=
  ⟨by decide, by decide, by decide⟩

/-- Claim C9 counterexample: `parse_arguments " Org1:T1"` fails although
every non-empty space-separated token of the input has exactly one colon
(the failure comes from the empty token that the leading space produces),
refuting the claimed "only if" direction. -/
theorem c9_only_if_counterexample :
    exOk (parse_arguments " Org1:T1".data) = false ∧
    (pySplit ' ' " Org1:T1".data).all
      (fun t => t.isEmpty || ((pySplit ':' t).length == 2)) = true :=
  ⟨by decide, by decide⟩

/-- Claim C3 (amended): empty or whitespace-only input yields an empty
sequence, and a clean space-joined list of `role:identifier` tokens (no
leading, trailing or doubled spaces) yields the (identifier, role) pairs in
input order; but trailing whitespace after a non-empty argument list makes
`parse_arguments` fail with ValueError instead of being ignored. -/
theorem c3_arguments_amended :
    (∀ s : Str, pyRstrip s = [] → parse_arguments s = .ok []) ∧
    (∀ ps : List (Str × Str),
      (∀ p ∈ ps, ' ' ∉ p.1 ∧ ':' ∉ p.1 ∧ ' ' ∉ p.2 ∧ ':' ∉ p.2) →
      parse_arguments (joinSp (ps.map (fun p => p.1 ++ ':' :: p.2))) =
        .ok (ps.map (fun p => ⟨p.2, p.1⟩))) ∧
    parse_arguments "Org1:T1 Org2:T3".data =
      .ok [⟨"T1".data, "Org1".data⟩, ⟨"T3".data, "Org2".data⟩] ∧
    parse_arguments "Org1:T1 ".data = .error PyErr.valueError := by
  refine ⟨?_, ?_, by decide, by decide⟩
  · intro s hs
    simp only [parse_arguments, if_pos hs]
  · intro ps hps
    cases ps with
    | nil => decide
    | cons p rest =>
      have htok : ∀ t ∈ (p :: rest).map (fun q => q.1 ++ ':' :: q.2), ' ' ∉ t := by
        intro t ht
        obtain ⟨q, hq, rfl⟩ := List.mem_map.mp ht
        obtain ⟨h1, h2, h3, h4⟩ := hps q hq
        intro hsp
        rcases List.mem_append.mp hsp with hA | hB
        · exact h1 hA
        · rcases List.mem_cons.mp hB with he | hC
          · exact absurd he (by decide)
          · exact h3 hC
      have hsplit := pySplit_joinSp _ htok (by simp)
      have hmemc : ':' ∈ joinSp ((p :: rest).map (fun q => q.1 ++ ':' :: q.2)) := by
        rw [List.map_cons]
        obtain ⟨suf, hsuf⟩ := joinSp_cons_append (p.1 ++ ':' :: p.2) (rest.map _)
        rw [hsuf]
        exact List.mem_append_left _
          (List.mem_append_right _ (List.mem_cons_self ':' p.2))
      have hne := pyRstrip_ne_nil hmemc (by decide)
      simp only [parse_arguments, if_neg hne, hsplit]
      rw [exMapM_map]
      refine exMapM_ok_map _ _ _ (fun q hq => ?_)
      obtain ⟨h1, h2, h3, h4⟩ := hps q hq
      simp only [argOfToken, pySplit_append ':' q.1 q.2 h2, pySplit_no_sep ':' q.2 h4]

theorem c3_arguments_amended_witness :
    parse_arguments "  ".data = .ok [] :=
  c3_arguments_amended.1 "  ".data (by decide)

/-- Claim C9 (amended): `parse_arguments` fails exactly when its input has
non-whitespace content (its rstrip is non-empty) and some token of the space
split of the original input — empty tokens included — does not split on the
colon into exactly two pieces; the claim's restriction to non-empty tokens
is wrong, since empty tokens produced by leading, trailing or doubled
spaces also cause a failure. -/
theorem c9_arguments_fail_iff (s : Str) :
    exOk (parse_arguments s) = false ↔
      (pyRstrip s ≠ [] ∧ ∃ t ∈ pySplit ' ' s, (pySplit ':' t).length ≠ 2) := by
  by_cases hs : pyRstrip s = []
  · simp [parse_arguments, hs, exOk]
  · simp only [parse_arguments, if_neg hs]
    rw [exMapM_error_iff]
    constructor
    · rintro ⟨t, ht, hb⟩
      exact ⟨hs, t, ht, (argOfToken_error_iff t).mp hb⟩
    · rintro ⟨-, t, ht, hlen⟩
      exact ⟨t, ht, (argOfToken_error_iff t).mpr hlen⟩

theorem c9_arguments_fail_iff_witness :
    exOk (parse_arguments "Org1T1".data) = false :=
  (c9_arguments_fail_iff "Org1T1".data).mpr
    ⟨by decide, "Org1T1".data, by decide, by decide⟩

/-- Claim C4 (amended): whenever the classifier produces a record that has
an `id` attribute (Entity, Event, Relation, Attribute, Note), that `id` is
the line's column-0 identifier verbatim; Equivalence and Normalization
records carry no `id` attribute at all — in particular a Normalization's
`anno_id` field is the target reference from column 1, not the line's own
identifier. -/
theorem c4_id_amended (line : Str) (rec : AnnRecord) (x : Str)
    (h : parse_ann_line line = .ok (some rec)) (hid : annId rec = some x) :
    x = (pySplit '\t' line).headD [] := by
  rcases hc : pySplit '\t' line with _ | ⟨c0, rest⟩
  · simp [parse_ann_line, hc] at h
  · rw [List.headD_cons]
    simp only [parse_ann_line, hc] at h
    split at h
    · simp only [classify, pyIndex] at h
      repeat' split at h
      all_goals simp_all [annId]
      all_goals cases h
      all_goals try simp_all
      all_goals
        rename_i heq
        rw [← hid]
        exact parse_attribute_id _ _ _ heq
    · exact absurd h (by simp)

theorem c4_id_amended_witness :
    ("T1".data : Str) = (pySplit '\t' "T1\tPerson 0 5\tJones".data).headD [] :=
  c4_id_amended "T1\tPerson 0 5\tJones".data
    (.entity ⟨"T1".data, [⟨.vStr "0".data, .vStr "5".data⟩], "Jones".data⟩)
    "T1".data (by decide) rfl

/-- Claim C5: a well-formed event line — identifier starting with `E`, then
a tab, then `type:triggerId`, a space, and an argument string that
`parse_arguments` accepts — is classified as an Event whose trigger pairs
the trigger identifier with the type and whose arguments are the parsed
pairs in line order; the zero-argument case is the instance with an empty
argument string after the space, and the spec's concrete example holds. -/
theorem c5_event_line (idRest tyStr trigStr argsStr : Str) (args : List Argument)
    (hid : '\t' ∉ idRest)
    (hty1 : ' ' ∉ tyStr) (hty2 : ':' ∉ tyStr) (hty3 : '\t' ∉ tyStr)
    (htr1 : ' ' ∉ trigStr) (htr2 : ':' ∉ trigStr) (htr3 : '\t' ∉ trigStr)
    (hargs : '\t' ∉ argsStr)
    (hpa : parse_arguments argsStr = .ok args) :
    parse_ann_line (('E' :: idRest) ++ '\t' ::
        ((tyStr ++ ':' :: trigStr) ++ ' ' :: argsStr)) =
      .ok (some (.event ⟨'E' :: idRest, ⟨trigStr, tyStr⟩, args⟩)) ∧
    parse_ann_line "E1\tMERGE-ORG:T2 Org1:T1 Org2:T3".data =
      .ok (some (.event ⟨"E1".data, ⟨"T2".data, "MERGE-ORG".data⟩,
        [⟨"T1".data, "Org1".data⟩, ⟨"T3".data, "Org2".data⟩]⟩)) := by
  refine ⟨?_, by decide⟩
  have hpay : '\t' ∉ (tyStr ++ ':' :: trigStr) ++ ' ' :: argsStr := by
    intro hm
    rcases List.mem_append.mp hm with hA | hB
    · rcases List.mem_append.mp hA with h1 | h2
      · exact hty3 h1
      · rcases List.mem_cons.mp h2 with he | hC
        · exact absurd he (by decide)
        · exact htr3 hC
    · rcases List.mem_cons.mp hB with he | hC
      · exact absurd he (by decide)
      · exact hargs hC
  have hid2 : '\t' ∉ 'E' :: idRest := by
    intro hm
    rcases List.mem_cons.mp hm with he | hC
    · exact absurd he (by decide)
    · exact hid hC
  have hcols := pySplit_append '\t' ('E' :: idRest)
    ((tyStr ++ ':' :: trigStr) ++ ' ' :: argsStr) hid2
  rw [pySplit_no_sep '\t' _ hpay] at hcols
  have hsp : ' ' ∉ tyStr ++ ':' :: trigStr := by
    intro hm
    rcases List.mem_append.mp hm with hA | hB
    · exact hty1 hA
    · rcases List.mem_cons.mp hB with he | hC
      · exact absurd he (by decide)
      · exact htr1 hC
  have hso := pySplitOnce_append ' ' (tyStr ++ ':' :: trigStr) argsStr hsp
  have hcolon : pySplit ':' (tyStr ++ ':' :: trigStr) = [tyStr, trigStr] := by
    rw [pySplit_append ':' tyStr trigStr hty2, pySplit_no_sep ':' trigStr htr2]
  have hT : pyStartswith ('E' :: idRest) ['T'] = false := rfl
  have hE : pyStartswith ('E' :: idRest) ['E'] = true := by
    cases idRest <;> rfl
  simp only [parse_ann_line]
  rw [hcols]
  rw [if_pos (by simp)]
  simp only [classify, pyIndex, hT, hE, Bool.false_eq_true, if_false,
    eq_self_iff_true, if_true, pyUnpackSplit1, hso, pyUnpack2, hcolon, hpa]

theorem c5_event_line_witness :
    parse_ann_line (('E' :: "15".data) ++ '\t' ::
        (("Process".data ++ ':' :: "T40".data) ++ ' ' :: ([] : Str))) =
      .ok (some (.event ⟨'E' :: "15".data, ⟨"T40".data, "Process".data⟩, []⟩)) :=
  (c5_event_line "15".data "Process".data "T40".data [] []
    (by decide) (by decide) (by decide) (by decide) (by decide) (by decide)
    (by decide) (by decide) (by decide)).1

/-- Claim C6 (amended): the Equivalence arm requires the identifier to be
exactly `*`, not merely to begin with `*` (the other arms do test only the
first character); a 2-column line whose identifier is exactly `*` and whose
column 1 is a type label, a space, and an entity list is classified as an
Equivalence carrying the space-split entity references in order, as in the
spec's `*<tab>Equiv T1 T3 T5` example. -/
theorem c6_equivalence_amended (tyStr entsStr : Str)
    (hty1 : ' ' ∉ tyStr) (hty2 : '\t' ∉ tyStr) (hents : '\t' ∉ entsStr) :
    parse_ann_line ('*' :: '\t' :: (tyStr ++ ' ' :: entsStr)) =
      .ok (some (.equivalence ⟨tyStr, pySplit ' ' entsStr⟩)) ∧
    parse_ann_line "*\tEquiv T1 T3 T5".data =
      .ok (some (.equivalence ⟨"Equiv".data, ["T1".data, "T3".data, "T5".data]⟩)) := by
  refine ⟨?_, by decide⟩
  have hpay : '\t' ∉ tyStr ++ ' ' :: entsStr := by
    intro hm
    rcases List.mem_append.mp hm with hA | hB
    · exact hty2 hA
    · rcases List.mem_cons.mp hB with he | hC
      · exact absurd he (by decide)
      · exact hents hC
  have hcols : pySplit '\t' ('*' :: '\t' :: (tyStr ++ ' ' :: entsStr)) =
      [['*'], tyStr ++ ' ' :: entsStr] := by
    have hstep := pySplit_append '\t' ['*'] (tyStr ++ ' ' :: entsStr) (by decide)
    rw [List.singleton_append] at hstep
    rw [hstep, pySplit_no_sep '\t' _ hpay]
  have hso := pySplitOnce_append ' ' tyStr entsStr hty1
  have hT : pyStartswith ['*'] ['T'] = false := rfl
  have hE : pyStartswith ['*'] ['E'] = false := rfl
  have hR : pyStartswith ['*'] ['R'] = false := rfl
  simp only [parse_ann_line]
  rw [hcols]
  rw [if_pos (by simp)]
  simp only [classify, pyIndex, hT, hE, hR, Bool.false_eq_true, if_false,
    if_true, pyUnpackSplit1, hso]

theorem c6_equivalence_amended_witness :
    parse_ann_line ('*' :: '\t' :: ("Equiv".data ++ ' ' :: "T1 T3".data)) =
      .ok (some (.equivalence ⟨"Equiv".data, pySplit ' ' "T1 T3".data⟩)) :=
  (c6_equivalence_amended "Equiv".data "T1 T3".data
    (by decide) (by decide) (by decide)).1

/-- Claim C7: a line with 2 or 3 tab-separated columns whose column-0
identifier does not begin with any of the recognized characters `T`, `E`,
`R`, `*`, `A`, `M`, `N`, `#` is silently skipped — no record and no
error. -/
theorem c7_unrecognized_skipped (line c0 : Str) (rest : List Str)
    (hc : pySplit '\t' line = c0 :: rest)
    (hlen : rest.length = 1 ∨ rest.length = 2)
    (hnp : ∀ c ∈ (['T', 'E', 'R', '*', 'A', 'M', 'N', '#'] : List Char),
      pyStartswith c0 [c] = false) :
    parse_ann_line line = .ok none := by
  have hT := hnp 'T' (by decide)
  have hE := hnp 'E' (by decide)
  have hR := hnp 'R' (by decide)
  have hS := hnp '*' (by decide)
  have hA := hnp 'A' (by decide)
  have hM := hnp 'M' (by decide)
  have hN := hnp 'N' (by decide)
  have hH := hnp '#' (by decide)
  have hstar : ¬c0 = ['*'] := by
    intro he
    rw [he] at hS
    exact absurd hS (by decide)
  simp only [parse_ann_line, hc]
  rw [if_pos (by simp only [List.length_cons]; omega)]
  simp [classify, pyIndex, hT, hE, hR, hA, hM, hN, hH, hstar]

theorem c7_unrecognized_skipped_witness :
    parse_ann_line "Z1\tfoo\tbar".data = .ok none :=
  c7_unrecognized_skipped "Z1\tfoo\tbar".data "Z1".data ["foo".data, "bar".data]
    (by decide) (by decide) (by decide)

/-- Claim C10: in every record built from a 3-column line, the Entity
`string` field and the Note `text` field hold column 2 with trailing
whitespace removed (`rstrip`), while the Normalization `text_str` field
holds column 2 verbatim, trailing whitespace — including a line
terminator — preserved. -/
theorem c10_text_field_whitespace (line c0 c1 c2 : Str)
    (hc : pySplit '\t' line = [c0, c1, c2]) :
    (∀ e : Entity, parse_ann_line line = .ok (some (.entity e)) →
      e.string = pyRstrip c2) ∧
    (∀ n : Note, parse_ann_line line = .ok (some (.note n)) →
      n.text = pyRstrip c2) ∧
    (∀ m : Normalization, parse_ann_line line = .ok (some (.normalization m)) →
      m.text_str = c2) := by
  have hkey : parse_ann_line line = classify [c0, c1, c2] := by
    simp [parse_ann_line, hc]
  refine ⟨?_, ?_, ?_⟩
  · intro r h
    rw [hkey] at h
    simp only [classify, pyIndex] at h
    repeat' split at h
    all_goals try simp_all
    all_goals cases h
    all_goals rfl
  · intro r h
    rw [hkey] at h
    simp only [classify, pyIndex] at h
    repeat' split at h
    all_goals try simp_all
    all_goals cases h
    all_goals rfl
  · intro r h
    rw [hkey] at h
    simp only [classify, pyIndex] at h
    repeat' split at h
    all_goals try simp_all
    all_goals exact parse_normalization_text c1 c2 _ (by assumption)

theorem c10_text_field_whitespace_witness :
    ("Jones".data : Str) = pyRstrip "Jones \n".data :=
  (c10_text_field_whitespace "T1\tPerson 0 5\tJones \n".data "T1".data
    "Person 0 5".data "Jones \n".data (by decide)).1
    ⟨"T1".data, [⟨.vStr "0".data, .vStr "5".data⟩], "Jones".data⟩ (by decide)

end Brat
